import Mathlib

/-!
Shallow embedding of the WhatsApp tractor-negotiation webhook (`src/server.js`).

The server holds a persisted JSON store (`data.json`) with a list of users
(sessions) and a list of tractors (the catalog).  Per inbound message it
reads the store, dispatches on the normalized message text through a
`switch (true)` chain, possibly mutates the in-memory store object, possibly
calls `writeData`, and replies with a list of TwiML message segments.

Numeric conventions: tractor ids are modelled as `Int` (the result type of
JavaScript `parseInt`), prices as `Nat`, offer amounts as `Int`.  The
floating-point comparison `offerAmount >= offerTractor.price * 0.9` is
modelled exactly as `10 * amount ≥ 9 * price`; for integer amounts and
prices in the realistic range the double-precision comparison agrees with
the exact rational one, since `9·price/10` is computed with relative error
far below the distance to the nearest integer boundary.  Likewise
`(price * 0.9).toFixed(2)` is modelled as the exact two-decimal rendering
of `9·price/10`.
-/

/-- The JavaScript `\s` character class (ECMAScript WhiteSpace and
LineTerminator), as used by `trim()` and the name regex. -/
def isJsWs (c : Char) : Bool :=
  c == ' ' || c == '\t' || c == '\n' || c == '\r' ||
  c == Char.ofNat 11 || c == Char.ofNat 12 ||
  c == Char.ofNat 0xa0 || c == Char.ofNat 0x1680 ||
  (0x2000 ≤ c.toNat && c.toNat ≤ 0x200a) ||
  c == Char.ofNat 0x2028 || c == Char.ofNat 0x2029 ||
  c == Char.ofNat 0x202f || c == Char.ofNat 0x205f ||
  c == Char.ofNat 0x3000 || c == Char.ofNat 0xfeff

/-- JavaScript `String.prototype.trim`: strip leading and trailing
whitespace. -/
def jsTrim (s : String) : String :=
  ⟨((s.data.dropWhile isJsWs).reverse.dropWhile isJsWs).reverse⟩

/-- JavaScript `String.prototype.toLowerCase` (ASCII fragment; all inputs
relevant here are ASCII). -/
def jsToLower (s : String) : String :=
  ⟨s.data.map Char.toLower⟩

/-- JavaScript `String.prototype.startsWith` (structural recursion on the
character lists, so that it evaluates inside the kernel). -/
def startsWithJS (s pre : String) : Bool :=
  pre.data.isPrefixOf s.data

/-- JavaScript `split(" ")` on the character list: split at every single
space, keeping empty segments (`"a  b"` gives `["a", "", "b"]`). -/
def splitSpace : List Char → List (List Char)
  | [] => [[]]
  | c :: rest =>
    if c == ' ' then [] :: splitSpace rest
    else
      match splitSpace rest with
      | [] => [[c]]
      | w :: ws => (c :: w) :: ws

/-- JavaScript `s.split(" ")`. -/
def splitOnSpace (s : String) : List String :=
  (splitSpace s.data).map (fun w => ⟨w⟩)

/-- Value of a maximal leading run of decimal digits, `none` when there is
no leading digit (the `NaN` outcome of `parseInt`). -/
def leadingDigitsVal (cs : List Char) : Option Nat :=
  let ds := cs.takeWhile Char.isDigit
  if ds.isEmpty then none
  else some (ds.foldl (fun n c => 10 * n + (c.toNat - 48)) 0)

/-- JavaScript `parseInt(s, 10)`.  `none` models `NaN`; a `none` argument
models `parseInt(undefined, 10)` (which is `NaN`). -/
def parseIntJS : Option String → Option Int
  | none => none
  | some s =>
    match s.data.dropWhile isJsWs with
    | [] => none
    | c :: rest =>
      if c == '-' then (leadingDigitsVal rest).map (fun n => -(n : Int))
      else if c == '+' then (leadingDigitsVal rest).map (fun n => (n : Int))
      else (leadingDigitsVal (c :: rest)).map (fun n => (n : Int))

/-- The test `/^\d+$/.test(msg)` (line 87 of `server.js`). -/
def digitOnly (m : String) : Bool :=
  !m.data.isEmpty && m.data.all Char.isDigit

/-- A character accepted by the name regex `/^[a-zA-Z\s\-']+$/`
(line 41 of `server.js`).  `Char.ofNat 39` is the apostrophe. -/
def isNameChar (c : Char) : Bool :=
  (('a' ≤ c && c ≤ 'z') || ('A' ≤ c && c ≤ 'Z')) ||
  isJsWs c || c == '-' || c == Char.ofNat 39

/-- Function `isValidName` (lines 39-43 of `server.js`):
`nameRegex.test(name) && name.trim().length >= 2`. -/
def isValidName (name : String) : Bool :=
  (!name.data.isEmpty && name.data.all isNameChar) &&
  decide ((jsTrim name).length ≥ 2)

/-- Normalization at line 48 of `server.js`:
`req.body.Body ? req.body.Body.toLowerCase().trim() : ''`.
An absent `Body` and a falsy (empty) `Body` both give `''`. -/
def normalizeMsg (body : Option String) : String :=
  match body with
  | none => ""
  | some s => if s == "" then "" else jsTrim (jsToLower s)

/-- Capitalization `charAt(0).toUpperCase() + slice(1)` (line 69 of `server.js`). -/
def capitalizeFirst (s : String) : String :=
  match s.data with
  | [] => ""
  | c :: rest => ⟨Char.toUpper c :: rest⟩

/-- Exact two-decimal rendering of `hundredths / 100`, the idealized
`toFixed(2)`. -/
def twoDecimalString (hundredths : Nat) : String :=
  let ip := hundredths / 100
  let fp := hundredths % 100
  toString ip ++ "." ++ (if fp < 10 then "0" ++ toString fp else toString fp)

/-- Rendering `(price * 0.9).toFixed(2)` (line 145 of `server.js`), exactly:
`0.9 * price = (90 * price) / 100` rendered with two decimals. -/
def minOfferString (price : Nat) : String :=
  twoDecimalString (90 * price)

/-- Rendering of the possibly-absent `user.name` inside a template string
(JavaScript prints `undefined` for an absent property). -/
def nameDisplay : Option String → String
  | some s => s
  | none => "undefined"

/-- The negotiation stage field: `'name_collection'` (the spec's
`collecting_name`) or `'offer_collection'` (the spec's `collecting_offer`). -/
inductive Stage where
  | name_collection
  | offer_collection
deriving DecidableEq, Repr

/-- The `user.currentNegotiation` object: `{ tractorId, stage }`. -/
structure Negotiation' where
  tractorId : Int
  stage : Stage
deriving DecidableEq, Repr

/-- A user record in `data.json`: `{ phone, name?, currentNegotiation }`. -/
structure User where
  phone : String
  name : Option String
  currentNegotiation' : Option Negotiation'
deriving DecidableEq, Repr

/-- A catalog entry in `data.json`. -/
structure Tractor where
  id : Int
  name : String
  price : Nat
  condition : String
  useCase : String
  image : String
deriving DecidableEq, Repr

/-- The whole persisted store (`data.json`): users and tractors. -/
structure Store where
  users : List User
  tractors : List Tractor
deriving DecidableEq, Repr

/-- Function `createResponseMessage` (lines 34-36 of `server.js`). -/
def createResponseMessage (message : String) : String :=
  "🤖 " ++ message

/-! ### Message texts (verbatim from `server.js`; `\x27` is the apostrophe) -/

/-- Reply of the `start` case (line 58). -/
def startMsg : String :=
  createResponseMessage "👋 Welcome to Hallo Tractor! \n\n• Type \x27Recommend\x27 for personalized tractor suggestions\n• Type \x27Browse\x27 to see all tractors\n\nWhat would you like to do?"

/-- Reply of the `recommend` case (line 63). -/
def recommendMsg : String :=
  createResponseMessage "Great! Let\x27s find the perfect tractor for you. What\x27s your primary use?\n\n• Type \x27Farming\x27\n• Type \x27Landscaping\x27\n• Type \x27Construction\x27"

/-- One catalog line `🔹 ${id}. ${name} - $${price}\n` (lines 71 and 81). -/
def tractorLine (t : Tractor) : String :=
  "🔹 " ++ toString t.id ++ ". " ++ t.name ++ " - $" ++ toString t.price ++ "\n"

/-- Reply of the category case (lines 66-75). -/
def categoryReply (d : Store) (m : String) : String :=
  let recommendedTractors := d.tractors.filter (fun t => jsToLower t.useCase == m)
  (recommendedTractors.foldl (fun acc t => acc ++ tractorLine t)
      (createResponseMessage ("🚜 Top " ++ capitalizeFirst m ++ " Tractors:\n")))
  ++ createResponseMessage "Reply \"View [ID]\" to see details or \"Browse\" for more options."

/-- Reply of the `browse` case (lines 77-85). -/
def browseReply (d : Store) : String :=
  (d.tractors.foldl (fun acc t => acc ++ tractorLine t)
      (createResponseMessage "Here are some tractors for sale: 🚜\n"))
  ++ createResponseMessage "Reply \"View [ID]\" for details. Tip: More options coming soon!"

/-- Detail segment of the `view` case (line 92). -/
def viewDetailMsg (t : Tractor) : String :=
  createResponseMessage ("🚜 Tractor Details:\n📋 Name: " ++ t.name ++ "\n💰 Price: $" ++ toString t.price ++ "\n🔍 Condition: " ++ t.condition ++ "\n🌱 Best For: " ++ t.useCase)

/-- Call-to-action segment of the `view` case (line 94). -/
def viewCtaMsg : String :=
  createResponseMessage "Interested? Type \x27Negotiate [ID]\x27 to start a conversation with the seller."

/-- Not-found reply (lines 96 and 116, identical text). -/
def notFoundMsg : String :=
  createResponseMessage "❌ Tractor not found. Type \x27Browse\x27 to see available tractors."

/-- Negotiation-started reply (line 113). -/
def negotiateGreet (tractorName : String) : String :=
  createResponseMessage ("🤝 Negotiating " ++ tractorName ++ ". Please send your full name (first and last name).")

/-- Name-accepted reply (line 125); `nm` is the value just assigned to
`user.name`. -/
def nameGreet (nm : String) : String :=
  createResponseMessage ("Hello, " ++ nm ++ "! 👋 What\x27s your initial offer for the tractor? Type \x27Offer [Amount]\x27.")

/-- Invalid-name reply (line 128). -/
def invalidNameMsg : String :=
  createResponseMessage "❌ Invalid name. Please enter your full name using letters, spaces, hyphens, or apostrophes."

/-- Non-numeric-offer reply (line 140). -/
def invalidOfferMsg : String :=
  createResponseMessage "❌ Please enter a valid number for your offer. Example: \x27Offer 5000\x27"

/-- Deal-accepted reply (line 142). -/
def acceptMsg (nm : String) (tractorName : String) (a : Int) : String :=
  createResponseMessage ("🎉 Deal accepted, " ++ nm ++ "! You\x27ve negotiated the " ++ tractorName ++ " at $" ++ toString a ++ ".")

/-- Offer-rejected reply (line 145). -/
def rejectMsg (price : Nat) : String :=
  createResponseMessage ("💔 Offer too low! The seller suggests a minimum of $" ++ minOfferString price ++ ".")

/-- No-active-negotiation reply (line 148). -/
def noActiveMsg : String :=
  createResponseMessage "❌ No active negotiation. Start by typing \x27Negotiate [ID]\x27."

/-- Default-case reply (line 154). -/
def defaultMsg : String :=
  createResponseMessage "👋 Welcome to Hallo Tractor! \n\n• Type \x27Start\x27 to begin\n• Type \x27Help\x27 for more information"

/-! ### Session mutations

In the source, `find` returns a reference into `data.users` and the handler
mutates that object in place; `updateFirst` models this by replacing the
first user with the given phone. -/

/-- Replace the first user whose `phone` matches by `f` of it (in-place
mutation of the object returned by `data.users.find`). -/
def updateFirst (users : List User) (phone : String) (f : User → User) : List User :=
  match users with
  | [] => []
  | usr :: rest =>
    if usr.phone == phone then f usr :: rest
    else usr :: updateFirst rest phone f

/-- Mutation of the `negotiate` case (lines 109-112):
`user.currentNegotiation = { tractorId: negotiateId, stage: 'name_collection' }`. -/
def setNegotiation' (i : Int) (usr : User) : User :=
  { usr with currentNegotiation' := some ⟨i, Stage.name_collection⟩ }

/-- Mutation of the name-collection case (lines 123-124):
`user.name = incomingMsg.trim(); user.currentNegotiation.stage = 'offer_collection'`. -/
def setNameAdvance (nm : String) (usr : User) : User :=
  { usr with
    name := some nm,
    currentNegotiation' := usr.currentNegotiation'.map
      (fun n => { n with stage := Stage.offer_collection }) }

/-- Mutation of the offer-acceptance branch (line 143):
`userOffer.currentNegotiation = null`. -/
def clearNegotiation' (usr : User) : User :=
  { usr with currentNegotiation' := none }

/-- State of `data.users` after the `negotiate` case succeeds (lines 105-112): if the
user exists the found object is mutated, else a fresh
`{ phone: userNumber, currentNegotiation: null }` is pushed and mutated. -/
def negotiateUsers (users : List User) (phone : String) (i : Int) : List User :=
  match users.find? (fun usr => usr.phone == phone) with
  | some _ => updateFirst users phone (setNegotiation' i)
  | none =>
    users ++ [setNegotiation' i { phone := phone, name := none, currentNegotiation' := none }]

/-! ### The webhook handler -/

/-- Result of one request: the in-memory store object after handling, the
store persisted on disk after handling (it differs from `memory` exactly
when a mutation happened without `writeData`), and the ordered reply
segments (`twiml.message` calls). -/
structure HandleResult where
  memory : Store
  persisted : Store
  reply : List String
deriving DecidableEq, Repr

/-- The `view`/digit case (lines 87-98):
`parseInt(incomingMsg.split(" ")[1] || incomingMsg, 10)`, then lookup. -/
def viewCase (d : Store) (m : String) : HandleResult :=
  let arg : String :=
    match (splitOnSpace m)[1]? with
    | some s => if s == "" then m else s
    | none => m
  match parseIntJS (some arg) with
  | some i =>
    match d.tractors.find? (fun t => t.id == i) with
    | some t => ⟨d, d, [viewDetailMsg t, t.image, viewCtaMsg]⟩
    | none => ⟨d, d, [notFoundMsg]⟩
  | none => ⟨d, d, [notFoundMsg]⟩

/-- The `negotiate` case (lines 100-118).  On success `writeData(data)` is
called, so memory and persisted agree. -/
def negotiateCase (d : Store) (userNumber m : String) : HandleResult :=
  match parseIntJS ((splitOnSpace m)[1]?) with
  | some i =>
    match d.tractors.find? (fun t => t.id == i) with
    | some t =>
      let d' : Store := { d with users := negotiateUsers d.users userNumber i }
      ⟨d', d', [negotiateGreet t.name]⟩
    | none => ⟨d, d, [notFoundMsg]⟩
  | none => ⟨d, d, [notFoundMsg]⟩

/-- The name-collection case (lines 120-130).  On success `writeData(data)`
is called, so memory and persisted agree; on failure nothing changes. -/
def nameCollectionCase (d : Store) (userNumber m : String) : HandleResult :=
  if isValidName m then
    let nm := jsTrim m
    let d' : Store := { d with users := updateFirst d.users userNumber (setNameAdvance nm) }
    ⟨d', d', [nameGreet nm]⟩
  else ⟨d, d, [invalidNameMsg]⟩

/-- The `offer` case (lines 132-150).  The acceptance branch clears the
negotiation on the in-memory object but never calls `writeData`, so there
`persisted` stays the pre-request store.  The inner `none` tractor case
models the `TypeError` the source would raise reading `offerTractor.price`;
it is unreachable while every stored `tractorId` resolves in the catalog. -/
def offerCase (d : Store) (userNumber m : String) : HandleResult :=
  match d.users.find? (fun usr => usr.phone == userNumber) with
  | some userOffer =>
    match userOffer.currentNegotiation' with
    | some neg =>
      match neg.stage with
      | Stage.offer_collection =>
        let offerAmount? := parseIntJS ((splitOnSpace m)[1]?)
        match d.tractors.find? (fun t => t.id == neg.tractorId) with
        | some offerTractor =>
          match offerAmount? with
          | none => ⟨d, d, [invalidOfferMsg]⟩
          | some a =>
            if 10 * a ≥ 9 * (offerTractor.price : Int) then
              ⟨{ d with users := updateFirst d.users userNumber clearNegotiation' }, d,
                [acceptMsg (nameDisplay userOffer.name) offerTractor.name a]⟩
            else ⟨d, d, [rejectMsg offerTractor.price]⟩
        | none => ⟨d, d, []⟩
      | Stage.name_collection => ⟨d, d, [noActiveMsg]⟩
    | none => ⟨d, d, [noActiveMsg]⟩
  | none => ⟨d, d, [noActiveMsg]⟩

/-- Whether `user && user.currentNegotiation && user.currentNegotiation.stage
=== 'name_collection'` (line 120). -/
def inNameCollection (user : Option User) : Bool :=
  match user with
  | some usr =>
    match usr.currentNegotiation' with
    | some n =>
      match n.stage with
      | Stage.name_collection => true
      | Stage.offer_collection => false
    | none => false
  | none => false

/-- The `switch (true)` dispatch (lines 55-156) on the already-normalized
message.  The case order is exactly the source order. -/
def handleMessage (d : Store) (incomingMsg userNumber : String) : HandleResult :=
  let user := d.users.find? (fun usr => usr.phone == userNumber)
  if incomingMsg == "start" then ⟨d, d, [startMsg]⟩
  else if incomingMsg == "recommend" then ⟨d, d, [recommendMsg]⟩
  else if incomingMsg == "farming" || incomingMsg == "landscaping" || incomingMsg == "construction" then
    ⟨d, d, [categoryReply d incomingMsg]⟩
  else if incomingMsg == "browse" then ⟨d, d, [browseReply d]⟩
  else if startsWithJS incomingMsg "view" || digitOnly incomingMsg then viewCase d incomingMsg
  else if startsWithJS incomingMsg "negotiate" then negotiateCase d userNumber incomingMsg
  else if inNameCollection user then nameCollectionCase d userNumber incomingMsg
  else if startsWithJS incomingMsg "offer" then offerCase d userNumber incomingMsg
  else ⟨d, d, [defaultMsg]⟩

/-- One full request (lines 46-160): normalize the body, dispatch. -/
def handleRequest (d : Store) (body : Option String) (userNumber : String) : HandleResult :=
  handleMessage d (normalizeMsg body) userNumber

/-- Disjunction of the five stateless dispatch conditions that precede the
`negotiate`, name-collection and `offer` cases (lines 56-87). -/
def statelessCase (m : String) : Bool :=
  (m == "start") || (m == "recommend") ||
  (m == "farming" || m == "landscaping" || m == "construction") ||
  (m == "browse") || (startsWithJS m "view" || digitOnly m)

/-- Name acceptance as the (amended) spec states it: every character is an
ASCII letter, a whitespace character, a hyphen or an apostrophe, and the
trimmed length is at least 2.  To be compared with `isValidName`. -/
def specNameOk (m : String) : Bool :=
  m.data.all (fun c =>
    (('a' ≤ c && c ≤ 'z') || ('A' ≤ c && c ≤ 'Z')) ||
    isJsWs c || c == '-' || c == Char.ofNat 39) &&
  decide ((jsTrim m).length ≥ 2)

/-! ### Concrete fixtures (a catalog of two tractors and some sessions) -/

/-- Catalog item 1, price 10000 (a multiple of 10: `0.9 · 10000` is whole). -/
def masseyT : Tractor := ⟨1, "Massey Ferguson 240", 10000, "New", "Farming", "massey.jpg"⟩

/-- Catalog item 2, price 10001 (not a multiple of 10:
`floor(0.9 · 10001) = 9000 < 9000.9 < 9001 = ceil(0.9 · 10001)`). -/
def deereT : Tractor := ⟨2, "John Deere 5055", 10001, "Used", "Construction", "jd.jpg"⟩

/-- The two-item catalog. -/
def catalog : List Tractor := [masseyT, deereT]

/-- A session in `offer_collection` for tractor 1. -/
def offerUser : User := ⟨"whatsapp:+100", some "jane doe", some ⟨1, Stage.offer_collection⟩⟩

/-- Store with `offerUser` only. -/
def offerStore : Store := ⟨[offerUser], catalog⟩

/-- A session in `offer_collection` for tractor 2 (price 10001). -/
def offerUser2 : User := ⟨"whatsapp:+100", some "jane doe", some ⟨2, Stage.offer_collection⟩⟩

/-- Store with `offerUser2` only. -/
def offerStore2 : Store := ⟨[offerUser2], catalog⟩

/-- A session in `name_collection` for tractor 1. -/
def nameUser : User := ⟨"whatsapp:+100", none, some ⟨1, Stage.name_collection⟩⟩

/-- Store with `nameUser` only. -/
def nameStore : Store := ⟨[nameUser], catalog⟩

/-- Store with no sessions. -/
def emptyStore : Store := ⟨[], catalog⟩

/-! ### Helper lemmas -/

/-- Arithmetic bridge: for an integer amount, the source comparison
`amount >= 0.9 * price` holds exactly when `amount` is at least
`⌈0.9 · price⌉`. -/
theorem threshold_iff_ceil (a : Int) (P : Nat) :
    (10 * a ≥ 9 * (P : Int)) ↔ a ≥ (((9 * P + 9) / 10 : Nat) : Int) := by
  omega

/-- After mutating the first user with a phone-preserving `f`, `find` on that
phone returns the mutated user. -/
theorem find?_updateFirst (users : List User) (phone : String) (f : User → User) (uo : User)
    (h : users.find? (fun x => x.phone == phone) = some uo)
    (hp : (f uo).phone = uo.phone) :
    (updateFirst users phone f).find? (fun x => x.phone == phone) = some (f uo) := by
  induction users with
  | nil => simp at h
  | cons head tail ih =>
    unfold updateFirst
    cases hcb : (head.phone == phone) with
    | true =>
      simp only [List.find?_cons, hcb] at h
      have hh : head = uo := by simpa using h
      subst hh
      simp [List.find?_cons, hp, hcb]
    | false =>
      simp only [List.find?_cons, hcb] at h
      simp only [hcb, if_false, Bool.false_eq_true, ite_false]
      simp only [List.find?_cons, hcb]
      exact ih h

/-- Finding on a list that did not contain a match, after pushing a matching
element, returns the pushed element. -/
theorem find?_append_single (users : List User) (p : User → Bool) (x : User)
    (h : users.find? p = none) (hx : p x = true) :
    (users ++ [x]).find? p = some x := by
  induction users with
  | nil => simp [List.find?_cons, hx]
  | cons head tail ih =>
    cases hcb : p head with
    | true => simp [List.find?_cons, hcb] at h
    | false =>
      simp only [List.find?_cons, hcb] at h
      simp only [List.cons_append, List.find?_cons, hcb]
      exact ih h

/-- Dispatch routing: a message that matches none of the five stateless
cases and does not start with `negotiate`, sent by a user whose negotiation
is in `offer_collection`, reaches the `offer` case. -/
theorem handleMessage_offer_route (d : Store) (userNumber m : String) (uo : User) (tid : Int)
    (hs : statelessCase m = false)
    (hneg : startsWithJS m "negotiate" = false)
    (hoff : startsWithJS m "offer" = true)
    (hu : d.users.find? (fun x => x.phone == userNumber) = some uo)
    (hn : uo.currentNegotiation' = some ⟨tid, Stage.offer_collection⟩) :
    handleMessage d m userNumber = offerCase d userNumber m := by
  simp only [statelessCase, Bool.or_eq_false_iff] at hs
  obtain ⟨⟨⟨⟨h1, h2⟩, ⟨hf, hl⟩, hc⟩, h4⟩, h5v, h5d⟩ := hs
  simp [handleMessage, inNameCollection, hu, hn, h1, h2, hf, hl, hc, h4, h5v, h5d, hneg, hoff]

/-- Behavior of the `offer` case in `offer_collection` with a parsed amount:
accept and clear in memory only (no `writeData`) when
`10 · amount ≥ 9 · price`, reject with everything unchanged otherwise. -/
theorem offerCase_spec (d : Store) (userNumber m : String) (uo : User) (tid : Int) (t : Tractor) (a : Int)
    (hu : d.users.find? (fun x => x.phone == userNumber) = some uo)
    (hn : uo.currentNegotiation' = some ⟨tid, Stage.offer_collection⟩)
    (ht : d.tractors.find? (fun tr => tr.id == tid) = some t)
    (ha : parseIntJS ((splitOnSpace m)[1]?) = some a) :
    offerCase d userNumber m =
      if 10 * a ≥ 9 * (t.price : Int) then
        ⟨{ d with users := updateFirst d.users userNumber clearNegotiation' }, d,
          [acceptMsg (nameDisplay uo.name) t.name a]⟩
      else ⟨d, d, [rejectMsg t.price]⟩ := by
  simp only [offerCase, hu, hn, ht, ha]

/-- Dispatch routing: a non-command message sent by a user whose negotiation
is in `name_collection` reaches the name-collection case. -/
theorem handleMessage_name_route (d : Store) (userNumber m : String) (uo : User) (tid : Int)
    (hs : statelessCase m = false)
    (hneg : startsWithJS m "negotiate" = false)
    (hu : d.users.find? (fun x => x.phone == userNumber) = some uo)
    (hn : uo.currentNegotiation' = some ⟨tid, Stage.name_collection⟩) :
    handleMessage d m userNumber = nameCollectionCase d userNumber m := by
  simp only [statelessCase, Bool.or_eq_false_iff] at hs
  obtain ⟨⟨⟨⟨h1, h2⟩, ⟨hf, hl⟩, hc⟩, h4⟩, h5v, h5d⟩ := hs
  simp [handleMessage, inNameCollection, hu, hn, h1, h2, hf, hl, hc, h4, h5v, h5d, hneg]

/-- Dispatch routing: a message starting with `negotiate` that matches no
earlier case reaches the `negotiate` case, whatever the session state. -/
theorem handleMessage_negotiate_route (d : Store) (userNumber m : String)
    (hs : statelessCase m = false)
    (hneg : startsWithJS m "negotiate" = true) :
    handleMessage d m userNumber = negotiateCase d userNumber m := by
  simp only [statelessCase, Bool.or_eq_false_iff] at hs
  obtain ⟨⟨⟨⟨h1, h2⟩, ⟨hf, hl⟩, hc⟩, h4⟩, h5v, h5d⟩ := hs
  simp [handleMessage, h1, h2, hf, hl, hc, h4, h5v, h5d, hneg]

/-- Dispatch plus guard: an `offer` message from a user with no session, or
with a session whose negotiation is absent, hits the else-branch of the
`offer` case: no-active-negotiation reply, nothing changes. -/
theorem handleMessage_offer_no_active (d : Store) (userNumber m : String)
    (hs : statelessCase m = false)
    (hneg : startsWithJS m "negotiate" = false)
    (hoff : startsWithJS m "offer" = true)
    (hno : (d.users.find? (fun x => x.phone == userNumber)).bind User.currentNegotiation' = none) :
    handleMessage d m userNumber = ⟨d, d, [noActiveMsg]⟩ := by
  simp only [statelessCase, Bool.or_eq_false_iff] at hs
  obtain ⟨⟨⟨⟨h1, h2⟩, ⟨hf, hl⟩, hc⟩, h4⟩, h5v, h5d⟩ := hs
  cases hu : d.users.find? (fun x => x.phone == userNumber) with
  | none =>
    simp [handleMessage, offerCase, inNameCollection, hu, h1, h2, hf, hl, hc, h4, h5v, h5d, hneg, hoff]
  | some uo =>
    rw [hu] at hno
    simp only [Option.some_bind] at hno
    simp [handleMessage, offerCase, inNameCollection, hu, hno, h1, h2, hf, hl, hc, h4, h5v, h5d, hneg, hoff]

/-- The source's name test agrees everywhere with the spec-side predicate
(`^\s*$`-free wording: the regex `+` also demands nonemptiness, which the
length bound subsumes). -/
theorem isValidName_eq_specNameOk (m : String) : isValidName m = specNameOk m := by
  cases m with
  | mk data => cases data <;> rfl

/-! ### Claims -/

/-- C1: evaluation at the failing input.  With the persisted store holding
user `whatsapp:+100` in `offer_collection` for tractor 1 (price 10000), the
message `offer 9500` meets the threshold and produces the acceptance reply,
yet the persisted store after the request still contains the negotiation:
the offer branch clears `currentNegotiation` only on the in-memory object
and never calls `writeData`, so the claim's "negotiation absent in the
persisted session store" fails. -/
theorem C1_accept_reply_but_negotiation_persisted :
    (handleRequest offerStore (some "offer 9500") "whatsapp:+100").reply
        = [acceptMsg "jane doe" "Massey Ferguson 240" 9500] ∧
    ((handleRequest offerStore (some "offer 9500") "whatsapp:+100").persisted.users.find?
        (fun x => x.phone == "whatsapp:+100")).bind User.currentNegotiation'
        = some ⟨1, Stage.offer_collection⟩ := by
  exact ⟨rfl, rfl⟩

/-- C2: evaluation at the failing input.  Handling `offer 9500` for a user
in `offer_collection` mutates the in-memory session collection (the
negotiation is cleared) but the persisted collection after the request is
not equal to the in-memory one — the offer branch is the one mutating
handler with no `writeData` call. -/
theorem C2_mutation_without_persistence :
    (handleRequest offerStore (some "offer 9500") "whatsapp:+100").memory
        ≠ (handleRequest offerStore (some "offer 9500") "whatsapp:+100").persisted ∧
    (handleRequest offerStore (some "offer 9500") "whatsapp:+100").memory ≠ offerStore := by
  constructor <;> decide

/-- C3 counterexample: a user mid-`name_collection` who sends `browse` gets
the browse listing, not the invalid-name reply — the `browse` switch case
precedes the name-collection case, so the claimed precedence rule does not
hold. -/
theorem C3_browse_counterexample :
    handleRequest nameStore (some "browse") "whatsapp:+100"
        = ⟨nameStore, nameStore, [browseReply nameStore]⟩ ∧
    [browseReply nameStore] ≠ [invalidNameMsg] := by
  constructor
  · rfl
  · decide

/-- C3 (amended): commands recognized by earlier switch cases keep their
usual meaning even in `collecting_name`; only input matching none of the
stateless command cases and no `negotiate` prefix is routed to name
handling, where an invalid attempt yields the invalid-name reply and leaves
the session (stage `collecting_name` included) unchanged. -/
theorem C3_noncommand_routed_to_name (d : Store) (body : Option String)
    (userNumber m : String) (uo : User) (tid : Int)
    (hm : normalizeMsg body = m)
    (hs : statelessCase m = false)
    (hneg : startsWithJS m "negotiate" = false)
    (hu : d.users.find? (fun x => x.phone == userNumber) = some uo)
    (hn : uo.currentNegotiation' = some ⟨tid, Stage.name_collection⟩)
    (hv : isValidName m = false) :
    handleRequest d body userNumber = ⟨d, d, [invalidNameMsg]⟩ := by
  unfold handleRequest
  rw [hm, handleMessage_name_route d userNumber m uo tid hs hneg hu hn]
  simp [nameCollectionCase, hv]

/-- C3 witness: the non-command, invalid-name input `x` sent
mid-`name_collection` produces the invalid-name reply and no change. -/
theorem C3_noncommand_routed_to_name_witness :
    handleRequest nameStore (some "x") "whatsapp:+100"
        = ⟨nameStore, nameStore, [invalidNameMsg]⟩ :=
  C3_noncommand_routed_to_name nameStore (some "x") "whatsapp:+100" "x" nameUser 1
    rfl (by decide) (by decide) rfl rfl (by decide)

/-- C4 counterexample: the user in `name_collection` sends `Jane Doe`; the
handler lowercases the message before validation, so `displayName` becomes
`jane doe`, not the text exactly as sent. -/
theorem C4_lowercased_name_counterexample :
    (handleRequest nameStore (some "Jane Doe") "whatsapp:+100").memory
        = ⟨[⟨"whatsapp:+100", some "jane doe", some ⟨1, Stage.offer_collection⟩⟩], catalog⟩ ∧
    ("jane doe" : String) ≠ "Jane Doe" := by
  constructor
  · rfl
  · decide

/-- C4 (amended): on a valid name attempt the display name is set to the
trimmed *lowercased* input (the dispatcher lowercases before routing) and
the stage advances to `offer_collection`, persisted. -/
theorem C4_name_set_to_lowercased_trim (d : Store) (body : Option String)
    (userNumber m : String) (uo : User) (tid : Int)
    (hm : normalizeMsg body = m)
    (hs : statelessCase m = false)
    (hneg : startsWithJS m "negotiate" = false)
    (hu : d.users.find? (fun x => x.phone == userNumber) = some uo)
    (hn : uo.currentNegotiation' = some ⟨tid, Stage.name_collection⟩)
    (hv : isValidName m = true) :
    handleRequest d body userNumber =
      ⟨{ d with users := updateFirst d.users userNumber (setNameAdvance (jsTrim m)) },
       { d with users := updateFirst d.users userNumber (setNameAdvance (jsTrim m)) },
       [nameGreet (jsTrim m)]⟩ ∧
    (updateFirst d.users userNumber (setNameAdvance (jsTrim m))).find?
        (fun x => x.phone == userNumber)
      = some { uo with
                name := some (jsTrim m),
                currentNegotiation' := some ⟨tid, Stage.offer_collection⟩ } := by
  constructor
  · unfold handleRequest
    rw [hm, handleMessage_name_route d userNumber m uo tid hs hneg hu hn]
    simp [nameCollectionCase, hv]
  · have h := find?_updateFirst d.users userNumber (setNameAdvance (jsTrim m)) uo hu rfl
    rw [h]
    simp [setNameAdvance, hn]

/-- C4 witness: `Jane Doe` is accepted and stored as `jane doe`, with the
stage advanced to `offer_collection`. -/
theorem C4_name_set_to_lowercased_trim_witness :
    (handleRequest nameStore (some "Jane Doe") "whatsapp:+100" =
      ⟨{ nameStore with
           users := updateFirst nameStore.users "whatsapp:+100" (setNameAdvance (jsTrim "jane doe")) },
       { nameStore with
           users := updateFirst nameStore.users "whatsapp:+100" (setNameAdvance (jsTrim "jane doe")) },
       [nameGreet (jsTrim "jane doe")]⟩) ∧
    (updateFirst nameStore.users "whatsapp:+100" (setNameAdvance (jsTrim "jane doe"))).find?
        (fun x => x.phone == "whatsapp:+100")
      = some { nameUser with
                name := some (jsTrim "jane doe"),
                currentNegotiation' := some ⟨1, Stage.offer_collection⟩ } :=
  C4_name_set_to_lowercased_trim nameStore (some "Jane Doe") "whatsapp:+100" "jane doe"
    nameUser 1 rfl (by decide) (by decide) rfl rfl (by decide)

/-- C5 counterexample: for price 10001, `floor(0.9 · 10001) = 9000`, yet the
offer `offer 9000` is rejected (store unchanged, rejection reply): the code
accepts only from `ceil(0.9 · P)` up, so "accepted iff
`amount ≥ floor(0.9 · P)`" is false. -/
theorem C5_floor_offer_rejected :
    (9000 : Int) = (((9 * deereT.price) / 10 : Nat) : Int) ∧
    handleRequest offerStore2 (some "offer 9000") "whatsapp:+100"
        = ⟨offerStore2, offerStore2, [rejectMsg 10001]⟩ := by
  constructor
  · decide
  · rfl

/-- C5 (amended): an integer offer in `collecting_offer` is accepted — the
negotiation record of the user's in-memory session becomes cleared — if and
only if the amount is at least `ceil(0.9 · price)` (equivalently
`10 · amount ≥ 9 · price`). -/
theorem C5_accept_iff_ceil (d : Store) (body : Option String)
    (userNumber m : String) (uo : User) (tid : Int) (t : Tractor) (a : Int)
    (hm : normalizeMsg body = m)
    (hs : statelessCase m = false)
    (hneg : startsWithJS m "negotiate" = false)
    (hoff : startsWithJS m "offer" = true)
    (hu : d.users.find? (fun x => x.phone == userNumber) = some uo)
    (hn : uo.currentNegotiation' = some ⟨tid, Stage.offer_collection⟩)
    (ht : d.tractors.find? (fun tr => tr.id == tid) = some t)
    (ha : parseIntJS ((splitOnSpace m)[1]?) = some a) :
    ((handleRequest d body userNumber).memory.users.find?
        (fun x => x.phone == userNumber) = some (clearNegotiation' uo))
      ↔ a ≥ (((9 * t.price + 9) / 10 : Nat) : Int) := by
  unfold handleRequest
  rw [hm, handleMessage_offer_route d userNumber m uo tid hs hneg hoff hu hn,
      offerCase_spec d userNumber m uo tid t a hu hn ht ha]
  by_cases hth : 10 * a ≥ 9 * (t.price : Int)
  · rw [if_pos hth]
    constructor
    · intro _
      exact (threshold_iff_ceil a t.price).mp hth
    · intro _
      exact find?_updateFirst d.users userNumber clearNegotiation' uo hu rfl
  · rw [if_neg hth]
    constructor
    · intro hfind
      exfalso
      simp only at hfind
      rw [hu] at hfind
      have huo : uo = clearNegotiation' uo := by simpa using hfind
      have hcn := congrArg User.currentNegotiation' huo
      rw [hn] at hcn
      simp [clearNegotiation'] at hcn
    · intro hge
      exact absurd ((threshold_iff_ceil a t.price).mpr hge) hth

/-- C5 witness: for price 10001 the offer 9001 = `ceil(0.9 · 10001)` is
exactly at the acceptance boundary. -/
theorem C5_accept_iff_ceil_witness :
    ((handleRequest offerStore2 (some "offer 9001") "whatsapp:+100").memory.users.find?
        (fun x => x.phone == "whatsapp:+100") = some (clearNegotiation' offerUser2))
      ↔ (9001 : Int) ≥ (((9 * deereT.price + 9) / 10 : Nat) : Int) :=
  C5_accept_iff_ceil offerStore2 (some "offer 9001") "whatsapp:+100" "offer 9001"
    offerUser2 2 deereT 9001 rfl (by decide) (by decide) (by decide) rfl rfl rfl (by decide)

/-- C6: boundary behavior of the offer threshold.  With the negotiation in
`collecting_offer` on a tractor of price `P`: any parsed integer offer of at
least `ceil(0.9 · P)` is accepted and the in-memory negotiation is cleared,
and any such offer of at most `floor(0.9 · P) - 1` is rejected with the
store (hence the stage `collecting_offer`) unchanged. -/
theorem C6_threshold_boundaries (d : Store) (body : Option String)
    (userNumber m : String) (uo : User) (tid : Int) (t : Tractor) (a : Int)
    (hm : normalizeMsg body = m)
    (hs : statelessCase m = false)
    (hneg : startsWithJS m "negotiate" = false)
    (hoff : startsWithJS m "offer" = true)
    (hu : d.users.find? (fun x => x.phone == userNumber) = some uo)
    (hn : uo.currentNegotiation' = some ⟨tid, Stage.offer_collection⟩)
    (ht : d.tractors.find? (fun tr => tr.id == tid) = some t)
    (ha : parseIntJS ((splitOnSpace m)[1]?) = some a) :
    (a ≥ (((9 * t.price + 9) / 10 : Nat) : Int) →
      handleRequest d body userNumber =
        ⟨{ d with users := updateFirst d.users userNumber clearNegotiation' }, d,
          [acceptMsg (nameDisplay uo.name) t.name a]⟩) ∧
    (a ≤ (((9 * t.price) / 10 : Nat) : Int) - 1 →
      handleRequest d body userNumber = ⟨d, d, [rejectMsg t.price]⟩) := by
  have hred : handleRequest d body userNumber =
      if 10 * a ≥ 9 * (t.price : Int) then
        ⟨{ d with users := updateFirst d.users userNumber clearNegotiation' }, d,
          [acceptMsg (nameDisplay uo.name) t.name a]⟩
      else ⟨d, d, [rejectMsg t.price]⟩ := by
    unfold handleRequest
    rw [hm, handleMessage_offer_route d userNumber m uo tid hs hneg hoff hu hn,
        offerCase_spec d userNumber m uo tid t a hu hn ht ha]
  constructor
  · intro hge
    rw [hred, if_pos ((threshold_iff_ceil a t.price).mpr hge)]
  · intro hle
    rw [hred, if_neg (by omega)]

/-- C6 witness: price 10001, user `whatsapp:+100`: offer 9001
(= `ceil(0.9 · P)`) is accepted and cleared; offer 8999
(= `floor(0.9 · P) - 1`) is rejected unchanged. -/
theorem C6_threshold_boundaries_witness :
    (handleRequest offerStore2 (some "offer 9001") "whatsapp:+100" =
      ⟨{ offerStore2 with
           users := updateFirst offerStore2.users "whatsapp:+100" clearNegotiation' },
        offerStore2, [acceptMsg "jane doe" "John Deere 5055" 9001]⟩) ∧
    (handleRequest offerStore2 (some "offer 8999") "whatsapp:+100" =
      ⟨offerStore2, offerStore2, [rejectMsg 10001]⟩) := by
  constructor
  · exact (C6_threshold_boundaries offerStore2 (some "offer 9001") "whatsapp:+100"
      "offer 9001" offerUser2 2 deereT 9001 rfl (by decide) (by decide) (by decide)
      rfl rfl rfl (by decide)).1 (by decide)
  · exact (C6_threshold_boundaries offerStore2 (some "offer 8999") "whatsapp:+100"
      "offer 8999" offerUser2 2 deereT 8999 rfl (by decide) (by decide) (by decide)
      rfl rfl rfl (by decide)).2 (by decide)

/-- C7: a parsed integer offer strictly below the threshold is rejected:
the reply is exactly the rejection message, which states the minimum
`0.9 · price` rendered with two decimal places (`rejectMsg` embeds
`minOfferString`, the exact `toFixed(2)` of `0.9 · price`); neither the
in-memory nor the persisted store changes, so the stage and the whole
negotiation record (its `tractorId` included) are untouched; and repeating
the same message against the persisted result yields the identical outcome. -/
theorem C7_rejection_stable (d : Store) (body : Option String)
    (userNumber m : String) (uo : User) (tid : Int) (t : Tractor) (a : Int)
    (hm : normalizeMsg body = m)
    (hs : statelessCase m = false)
    (hneg : startsWithJS m "negotiate" = false)
    (hoff : startsWithJS m "offer" = true)
    (hu : d.users.find? (fun x => x.phone == userNumber) = some uo)
    (hn : uo.currentNegotiation' = some ⟨tid, Stage.offer_collection⟩)
    (ht : d.tractors.find? (fun tr => tr.id == tid) = some t)
    (ha : parseIntJS ((splitOnSpace m)[1]?) = some a)
    (hlt : 10 * a < 9 * (t.price : Int)) :
    handleRequest d body userNumber = ⟨d, d, [rejectMsg t.price]⟩ ∧
    handleRequest (handleRequest d body userNumber).persisted body userNumber
      = handleRequest d body userNumber := by
  have h1 : handleRequest d body userNumber = ⟨d, d, [rejectMsg t.price]⟩ := by
    unfold handleRequest
    rw [hm, handleMessage_offer_route d userNumber m uo tid hs hneg hoff hu hn,
        offerCase_spec d userNumber m uo tid t a hu hn ht ha, if_neg (not_le.mpr hlt)]
  exact ⟨h1, by rw [h1]; exact h1⟩

/-- C7 witness: price 10000, offer 8000: rejected, minimum stated as
`$9000.00`, store unchanged, and resubmitting gives the identical result. -/
theorem C7_rejection_stable_witness :
    (handleRequest offerStore (some "offer 8000") "whatsapp:+100"
        = ⟨offerStore, offerStore, [rejectMsg 10000]⟩) ∧
    (handleRequest (handleRequest offerStore (some "offer 8000") "whatsapp:+100").persisted
        (some "offer 8000") "whatsapp:+100"
      = handleRequest offerStore (some "offer 8000") "whatsapp:+100") :=
  C7_rejection_stable offerStore (some "offer 8000") "whatsapp:+100" "offer 8000"
    offerUser 1 masseyT 8000 rfl (by decide) (by decide) (by decide) rfl rfl rfl
    (by decide) (by decide)

/-- C8 counterexample: the input `a<TAB>b` sent mid-`name_collection`
contains a character (the tab) outside the claimed class
{letters, spaces, hyphens, apostrophes}, so the claim demands rejection —
but the regex class is `\s` (all whitespace), so the code accepts it as a
name and advances the stage. -/
theorem C8_tab_accepted_counterexample :
    (handleRequest nameStore (some "a\tb") "whatsapp:+100").memory
        = ⟨[⟨"whatsapp:+100", some "a\tb", some ⟨1, Stage.offer_collection⟩⟩], catalog⟩ ∧
    ("a\tb".data.all (fun c =>
        (('a' ≤ c && c ≤ 'z') || ('A' ≤ c && c ≤ 'Z')) ||
        c == ' ' || c == '-' || c == Char.ofNat 39)) = false := by
  constructor
  · rfl
  · decide

/-- C8 (amended): for inputs that reach name handling (non-command input
while in `collecting_name`), acceptance holds iff every character is a
letter, a whitespace character (the regex `\s`, not just the space), a
hyphen or an apostrophe, and the trimmed length is at least 2; a failing
input gets the invalid-name reply with the whole store (hence the stage)
unchanged, so retries are unlimited. -/
theorem C8_name_validation_iff (d : Store) (body : Option String)
    (userNumber m : String) (uo : User) (tid : Int)
    (hm : normalizeMsg body = m)
    (hs : statelessCase m = false)
    (hneg : startsWithJS m "negotiate" = false)
    (hu : d.users.find? (fun x => x.phone == userNumber) = some uo)
    (hn : uo.currentNegotiation' = some ⟨tid, Stage.name_collection⟩) :
    (specNameOk m = true →
      handleRequest d body userNumber =
        ⟨{ d with users := updateFirst d.users userNumber (setNameAdvance (jsTrim m)) },
         { d with users := updateFirst d.users userNumber (setNameAdvance (jsTrim m)) },
         [nameGreet (jsTrim m)]⟩) ∧
    (specNameOk m = false →
      handleRequest d body userNumber = ⟨d, d, [invalidNameMsg]⟩) := by
  have hroute : handleRequest d body userNumber = nameCollectionCase d userNumber m := by
    unfold handleRequest
    rw [hm]
    exact handleMessage_name_route d userNumber m uo tid hs hneg hu hn
  rw [hroute]
  constructor
  · intro hok
    simp [nameCollectionCase, isValidName_eq_specNameOk, hok]
  · intro hbad
    simp [nameCollectionCase, isValidName_eq_specNameOk, hbad]

/-- C8 witness: `mary` passes (letters, length 4) and advances the stage;
`jane3` contains a digit, fails, and leaves everything unchanged. -/
theorem C8_name_validation_iff_witness :
    (handleRequest nameStore (some "mary") "whatsapp:+100" =
      ⟨{ nameStore with
           users := updateFirst nameStore.users "whatsapp:+100" (setNameAdvance (jsTrim "mary")) },
       { nameStore with
           users := updateFirst nameStore.users "whatsapp:+100" (setNameAdvance (jsTrim "mary")) },
       [nameGreet (jsTrim "mary")]⟩) ∧
    (handleRequest nameStore (some "jane3") "whatsapp:+100"
        = ⟨nameStore, nameStore, [invalidNameMsg]⟩) := by
  constructor
  · exact (C8_name_validation_iff nameStore (some "mary") "whatsapp:+100" "mary"
      nameUser 1 rfl (by decide) (by decide) rfl rfl).1 (by decide)
  · exact (C8_name_validation_iff nameStore (some "jane3") "whatsapp:+100" "jane3"
      nameUser 1 rfl (by decide) (by decide) rfl rfl).2 (by decide)

/-- C9: a `negotiate` message (matching no earlier dispatch case) whose id
parses and resolves in the catalog rewrites the sender's session — mutating
it if present, pushing a fresh one otherwise — to a negotiation
`{tractorId = id, stage = name_collection}`, and persists it (the branch
calls `writeData`); if the id does not resolve (unparsable or absent from
the catalog), the reply is the not-found message and nothing changes. -/
theorem C9_negotiate_transition (d : Store) (body : Option String)
    (userNumber m : String)
    (hm : normalizeMsg body = m)
    (hs : statelessCase m = false)
    (hneg : startsWithJS m "negotiate" = true) :
    (∀ i t, parseIntJS ((splitOnSpace m)[1]?) = some i →
        d.tractors.find? (fun tr => tr.id == i) = some t →
        handleRequest d body userNumber =
          ⟨{ d with users := negotiateUsers d.users userNumber i },
           { d with users := negotiateUsers d.users userNumber i },
           [negotiateGreet t.name]⟩ ∧
        ((negotiateUsers d.users userNumber i).find?
            (fun x => x.phone == userNumber)).bind User.currentNegotiation'
          = some ⟨i, Stage.name_collection⟩) ∧
    ((parseIntJS ((splitOnSpace m)[1]?)).bind
        (fun i => d.tractors.find? (fun tr => tr.id == i)) = none →
      handleRequest d body userNumber = ⟨d, d, [notFoundMsg]⟩) := by
  have hroute : handleRequest d body userNumber = negotiateCase d userNumber m := by
    unfold handleRequest
    rw [hm]
    exact handleMessage_negotiate_route d userNumber m hs hneg
  constructor
  · intro i t hi ht
    constructor
    · rw [hroute]
      simp [negotiateCase, hi, ht]
    · unfold negotiateUsers
      cases hu : d.users.find? (fun x => x.phone == userNumber) with
      | some uo =>
        rw [find?_updateFirst d.users userNumber (setNegotiation' i) uo hu rfl]
        rfl
      | none =>
        rw [find?_append_single d.users _ _ hu (by simp [setNegotiation'])]
        rfl
  · intro hnone
    rw [hroute]
    cases hi : parseIntJS ((splitOnSpace m)[1]?) with
    | none => simp [negotiateCase, hi]
    | some i =>
      rw [hi] at hnone
      simp only [Option.some_bind] at hnone
      simp [negotiateCase, hi, hnone]

/-- C9 witness: a user with no session sends `Negotiate 1`; a fresh session
in `name_collection` for tractor 1 is created and persisted. -/
theorem C9_negotiate_transition_witness :
    (handleRequest emptyStore (some "Negotiate 1") "whatsapp:+200" =
      ⟨{ emptyStore with users := negotiateUsers emptyStore.users "whatsapp:+200" 1 },
       { emptyStore with users := negotiateUsers emptyStore.users "whatsapp:+200" 1 },
       [negotiateGreet "Massey Ferguson 240"]⟩) ∧
    ((negotiateUsers emptyStore.users "whatsapp:+200" 1).find?
        (fun x => x.phone == "whatsapp:+200")).bind User.currentNegotiation'
      = some ⟨1, Stage.name_collection⟩ :=
  (C9_negotiate_transition emptyStore (some "Negotiate 1") "whatsapp:+200" "negotiate 1"
      rfl (by decide) (by decide)).1 1 masseyT (by decide) rfl

/-- C10 counterexample: a user mid-`name_collection` sends `offer 100`; the
name-collection case precedes the `offer` case, so the reply is the
invalid-name prompt, not the claimed no-active-negotiation reply. -/
theorem C10_offer_in_name_collection_counterexample :
    (handleRequest nameStore (some "offer 100") "whatsapp:+100").reply = [invalidNameMsg] ∧
    [invalidNameMsg] ≠ [noActiveMsg] := by
  constructor
  · rfl
  · decide

/-- C10 (amended): an `offer` message from a user with no session, or whose
session has no active negotiation, yields the no-active-negotiation reply
and changes nothing; a user in `collecting_name` never reaches the offer
handler (the input is treated as a name attempt instead). -/
theorem C10_offer_no_active (d : Store) (body : Option String)
    (userNumber m : String)
    (hm : normalizeMsg body = m)
    (hs : statelessCase m = false)
    (hneg : startsWithJS m "negotiate" = false)
    (hoff : startsWithJS m "offer" = true)
    (hno : (d.users.find? (fun x => x.phone == userNumber)).bind User.currentNegotiation'
        = none) :
    handleRequest d body userNumber = ⟨d, d, [noActiveMsg]⟩ := by
  unfold handleRequest
  rw [hm]
  exact handleMessage_offer_no_active d userNumber m hs hneg hoff hno

/-- C10 witness: with no session at all, `offer 100` gets the
no-active-negotiation reply and the store is untouched. -/
theorem C10_offer_no_active_witness :
    handleRequest emptyStore (some "offer 100") "whatsapp:+300"
        = ⟨emptyStore, emptyStore, [noActiveMsg]⟩ :=
  C10_offer_no_active emptyStore (some "offer 100") "whatsapp:+300" "offer 100"
    rfl (by decide) (by decide) (by decide) rfl
